import Mathlib

/-!
Verification of the receipt-wallet backend: a shallow embedding of the
authentication/session-token flow (`auth.py`), the record normalizer and
scoped store gateway (`fbase.py`), the extraction/reasoning dispatcher
(`llm.py`), the wallet object builder (`main.py`) and the save-to-wallet
endpoint (`llm_api.py`), together with theorems settling the stated
properties of the specification.

Modelling conventions: Python dicts read with `.get` become structures of
`Option` fields (`none` models an absent key); Python numbers become `ℚ`;
Firestore is a list of receipt documents, each carrying its items
subcollection; server-assigned data (timestamps, fresh document ids, HTTP
responses from the external wallet issuer) are explicit parameters; the
external JWT library is modelled by an inductive of structurally valid
signed tokens versus garbage, with signature verification before claim
validation, as the `jwt` package performs it.
-/

/-! ## Python-style primitives -/

/-- Python `s.lower()` on a string, character by character. -/
def pyLower (s : String) : String := String.mk (s.data.map Char.toLower)

/-- Python `s.endswith(t)`. -/
def pyEndsWith (s t : String) : Bool := t.data.isSuffixOf s.data

/-- Python truthiness of an optional string: an absent value (`None`) and the
empty string are falsy. -/
def pyFalsy : Option String → Bool
  | none => true
  | some s => s == ""

/-- Python `a or b` where `a` is an optional string (a `dict.get` with no
default): falsy values (`None`, `""`) fall through to `b`. -/
def pyOrStr (a : Option String) (b : String) : String :=
  match a with
  | some s => if s == "" then b else s
  | none => b

/-! ## Session tokens (`auth.py`) -/

/-- Minimal user profile stored in access tokens (`auth.py:17`). -/
structure AuthenticatedUser where
  sub : String
  email : String
  name : Option String
  picture : Option String
deriving Repr, DecidableEq

/-- The claim set of an application session token (`auth.py:78`). In a forged
or foreign token any of the profile claims may be absent. -/
structure JwtPayload where
  sub : Option String
  email : Option String
  name : Option String
  picture : Option String
  iat : Int
  exp : Int
deriving Repr, DecidableEq

/-- A session token as the `jwt` library classifies it: a structurally valid
token carrying its payload and the key it was signed with, or an unparseable
string. -/
inductive Jwt where
  | signed (payload : JwtPayload) (key : String)
  | garbage (raw : String)
deriving Repr, DecidableEq

/-- The four authentication failure kinds of the error taxonomy. `Expired`,
`Invalid` and `Malformed` are raised by `decode_access_token`
(`auth.py:94-113`); `MissingCredential` by `get_current_user`. -/
inductive AuthErrorKind where
  | Expired
  | Invalid
  | Malformed
  | MissingCredential
deriving Repr, DecidableEq

/-- `create_access_token` (`auth.py:73-86`): embeds the profile, an issued-at
timestamp and an expiry `JWT_EXP_MINUTES` minutes later, signed with the
server secret. `now` is the current time in seconds. -/
def create_access_token (secret : String) (exp_minutes : Int) (now : Int)
    (user : AuthenticatedUser) : Jwt :=
  Jwt.signed
    { sub := some user.sub
      email := some user.email
      name := user.name
      picture := user.picture
      iat := now
      exp := now + exp_minutes * 60 } secret

/-- `decode_access_token` (`auth.py:89-114`). The `jwt` library verifies
structure and signature first (`InvalidTokenError`, mapped to `Invalid`),
then the expiry claim (`ExpiredSignatureError`, mapped to `Expired`, when the
current time has reached `exp`); the handler then rejects a payload whose
`sub` or `email` is absent or empty (Python truthiness) as `Malformed`, and
otherwise returns the embedded profile. -/
def decode_access_token (secret : String) (now : Int) (token : Jwt) :
    Except AuthErrorKind AuthenticatedUser :=
  match token with
  | .garbage _ => .error .Invalid
  | .signed payload key =>
    if key ≠ secret then .error .Invalid
    else if payload.exp ≤ now then .error .Expired
    else if pyFalsy payload.sub || pyFalsy payload.email then .error .Malformed
    else .ok
      { sub := payload.sub.getD ""
        email := payload.email.getD ""
        name := payload.name
        picture := payload.picture }

/-! ## Receipt records and the normalizer (`fbase.py`) -/

/-- An item dict as stored in or read from the items subcollection: every
field optional, mirroring a Python dict read with `.get`. -/
structure RawItem where
  item_name : Option String
  name : Option String
  price : Option ℚ
  quantity : Option Int
deriving Repr, DecidableEq

/-- A raw receipt dict as submitted to the save path. -/
structure RawReceipt where
  type_of_purchase : Option String
  establishment_name : Option String
  date : Option String
  total : Option ℚ
  items : List RawItem
deriving Repr, DecidableEq

/-- The item mapping of `normalize_receipt` (`fbase.py:21-26`): name from
`item.get("item_name") or item.get("name", "Unknown")` (Python `or`), price
defaulting to 0, quantity defaulting to 1. The output dict has exactly the
keys `name`, `price`, `quantity`. -/
def normalize_item (item : RawItem) : RawItem :=
  { item_name := none
    name := some (pyOrStr item.item_name (item.name.getD "Unknown"))
    price := some (item.price.getD 0)
    quantity := some (item.quantity.getD 1) }

/-- `normalize_receipt` (`fbase.py:11-27`): standardize the structure of a
receipt, filling documented defaults. -/
def normalize_receipt (raw_data : RawReceipt) : RawReceipt :=
  { type_of_purchase := some (raw_data.type_of_purchase.getD "Retail")
    establishment_name := some (raw_data.establishment_name.getD "Unknown Store")
    date := some (raw_data.date.getD "")
    total := some (raw_data.total.getD 0)
    items := raw_data.items.map normalize_item }

/-! ## The document store (`fbase.py`, Firestore) -/

/-- Top-level fields of a document of the receipts collection, as written by
`insert_data` (`fbase.py:33-40`). -/
structure ReceiptFields where
  user_sub : String
  type_of_purchase : String
  establishment_name : String
  date : String
  total : ℚ
  created_at : Int
deriving Repr, DecidableEq

/-- A receipts-collection document together with its items subcollection. -/
structure StoredReceipt where
  id : String
  fields : ReceiptFields
  items : List RawItem
deriving Repr, DecidableEq

/-- The receipts collection. -/
abbrev ReceiptStore := List StoredReceipt

/-- `insert_data` (`fbase.py:29-50`): normalize, write the receipt document
tagged with `user_id` and the server timestamp, then write each normalized
item into the items subcollection; return the new id. The fresh document id
and the server-assigned timestamp are parameters of the model. The `getD`
calls merely strip the `Option` layer: `normalize_receipt` returns every
top-level field populated, so their defaults never fire. -/
def insert_data (store : ReceiptStore) (receipt_data : RawReceipt)
    (user_id : String) (new_id : String) (server_timestamp : Int) :
    ReceiptStore × String :=
  let receipt := normalize_receipt receipt_data
  (store ++ [{ id := new_id
               fields := { user_sub := user_id
                           type_of_purchase := receipt.type_of_purchase.getD "Retail"
                           establishment_name := receipt.establishment_name.getD "Unknown Store"
                           date := receipt.date.getD ""
                           total := receipt.total.getD 0
                           created_at := server_timestamp }
               items := receipt.items }], new_id)

/-- A receipt dict assembled for callers by the read paths: the document
fields plus `id` and an `items` list. -/
structure ReceiptDict where
  id : String
  user_sub : String
  type_of_purchase : String
  establishment_name : String
  date : String
  total : ℚ
  created_at : Int
  items : List RawItem
deriving Repr, DecidableEq

/-- The item remapping of `get_all_receipts` (`fbase.py:82-87`): name from
`item_data.get("item_name", item_data.get("name", "Unknown"))`, price
defaulting to 0, quantity defaulting to 1. -/
def remap_item (item_data : RawItem) : RawItem :=
  { item_name := none
    name := some (item_data.item_name.getD (item_data.name.getD "Unknown"))
    price := some (item_data.price.getD 0)
    quantity := some (item_data.quantity.getD 1) }

/-- The Firestore query of `get_all_receipts` (`fbase.py:71`):
`where("user_sub","==",user_id)` then `order_by("created_at", DESCENDING)`,
i.e. the matching documents sorted most recent first. -/
def query_receipts_desc (store : ReceiptStore) (user_id : String) :
    List StoredReceipt :=
  (store.filter (fun d => d.fields.user_sub == user_id)).mergeSort
    (fun a b => decide (b.fields.created_at ≤ a.fields.created_at))

/-- The per-document assembly of `get_all_receipts` (`fbase.py:75-91`):
document fields, remapped items, and the document id. -/
def listed_receipt (d : StoredReceipt) : ReceiptDict :=
  { id := d.id
    user_sub := d.fields.user_sub
    type_of_purchase := d.fields.type_of_purchase
    establishment_name := d.fields.establishment_name
    date := d.fields.date
    total := d.fields.total
    created_at := d.fields.created_at
    items := d.items.map remap_item }

/-- `get_all_receipts` (`fbase.py:68-93`): fetch the caller's receipts,
newest first, each with its remapped items attached. -/
def get_all_receipts (store : ReceiptStore) (user_id : String) :
    List ReceiptDict :=
  (query_receipts_desc store user_id).map listed_receipt

/-! ## The dispatcher (`llm.py`) -/

/-- The per-document assembly of `fetch_all_receipts_from_firebase`
(`llm.py:82-91`): the document fields, the raw (unremapped) items, and the
id. The isoformat stringification of timestamp values only changes their
rendering and is elided. -/
def fetched_receipt (d : StoredReceipt) : ReceiptDict :=
  { id := d.id
    user_sub := d.fields.user_sub
    type_of_purchase := d.fields.type_of_purchase
    establishment_name := d.fields.establishment_name
    date := d.fields.date
    total := d.fields.total
    created_at := d.fields.created_at
    items := d.items }

/-- `fetch_all_receipts_from_firebase` (`llm.py:76-92`): stream the entire
receipts collection — no `where` clause, no owner filter. -/
def fetch_all_receipts_from_firebase (store : ReceiptStore) : List ReceiptDict :=
  store.map fetched_receipt

/-- A positional argument of the dynamically typed dispatcher `llm_model`:
a string, a list (of receipt dicts), or a value of any other type. -/
inductive PyArg where
  | str (s : String)
  | list (receipts : List ReceiptDict)
  | other
deriving Repr, DecidableEq

/-- `args[0].lower().endswith((".jpg", ".jpeg", ".png"))` (`llm.py:101`). -/
def is_image_path (s : String) : Bool :=
  pyEndsWith (pyLower s) ".jpg" || pyEndsWith (pyLower s) ".jpeg" ||
    pyEndsWith (pyLower s) ".png"

/-- The request the dispatcher hands to the model provider: an extraction
request for an uploaded image, or a chat request built from the prompt and
the serialized receipt context. -/
inductive LlmRequest where
  | extraction (image_path : String)
  | chat (prompt : String) (receipts : List ReceiptDict)
deriving Repr, DecidableEq

/-- `llm_model` (`llm.py:94-138`): image-extraction mode when the argument
list is exactly one string with an image extension; conversational mode when
the first argument is a string otherwise, taking the receipts from a second
list argument when given and from `fetch_all_receipts_from_firebase`
otherwise; anything else raises `ValueError`. The external inference call is
abstracted to the request it issues. -/
def llm_model (store : ReceiptStore) (args : List PyArg) :
    Except String LlmRequest :=
  match args with
  | [PyArg.str s] =>
    if is_image_path s then Except.ok (LlmRequest.extraction s)
    else Except.ok (LlmRequest.chat s (fetch_all_receipts_from_firebase store))
  | PyArg.str s :: second :: _ =>
    match second with
    | PyArg.list receipts => Except.ok (LlmRequest.chat s receipts)
    | _ => Except.ok (LlmRequest.chat s (fetch_all_receipts_from_firebase store))
  | _ => Except.error "Invalid llm_model call - must pass image_path or (prompt, [receipts])"

/-! ## The wallet object builder (`main.py`) -/

/-- The wallet issuer id (`main.py:19`). -/
def ISSUER_ID : String := "3388000000023012969"

/-- The service-account material read from `wallet-service-key.json`
(`main.py:31-32`). -/
structure ServiceAccountInfo where
  client_email : String
  private_key : String
deriving Repr, DecidableEq

/-- The receipt dict handed to `create_wallet_object` by `save_to_wallet`
(`llm_api.py:133-146`): the fields the builder reads, plus the items list. -/
structure WalletReceiptData where
  type_of_purchase : String
  establishment_name : String
  date : String
  total : ℚ
  items : List RawItem
deriving Repr, DecidableEq

/-- One line of the items summary (`main.py:52-57`). The Python `str()`
rendering of numbers is replaced by Lean's, which only changes the digits'
formatting. -/
def wallet_item_line (i : RawItem) : String :=
  (i.name.getD "Unknown") ++ ": ₹" ++ toString (i.price.getD 0) ++ " x " ++
    toString (i.quantity.getD 1)

/-- The generic-object descriptor posted to the wallet issuer
(`main.py:62-92`). Nested language/value wrappers are flattened to the value
they carry; the barcode's JSON payload is kept as its structured content. -/
structure WalletObjectPayload where
  id : String
  classId : String
  state : String
  cardTitle : String
  header : String
  subheader : String
  hexBackgroundColor : String
  itemsText : String
  totalText : String
  barcodeEstablishment : String
  barcodeDate : String
  barcodeType : String
  barcodeTotal : ℚ
  barcodeItems : List RawItem
deriving Repr, DecidableEq

/-- The object payload built by `create_wallet_object` (`main.py:60-92`);
`now` stands for `int(time.time())`. -/
def wallet_object_payload (receipt_data : WalletReceiptData) (now : Int) :
    WalletObjectPayload :=
  { id := ISSUER_ID ++ ".receiptObject" ++ toString now
    classId := ISSUER_ID ++ ".receiptClass123"
    state := "ACTIVE"
    cardTitle := receipt_data.establishment_name
    header := receipt_data.type_of_purchase ++ " Receipt"
    subheader := receipt_data.date
    hexBackgroundColor := "#4285f4"
    itemsText := String.intercalate "\n" (receipt_data.items.map wallet_item_line)
    totalText := "₹" ++ toString receipt_data.total
    barcodeEstablishment := receipt_data.establishment_name
    barcodeDate := receipt_data.date
    barcodeType := receipt_data.type_of_purchase
    barcodeTotal := receipt_data.total
    barcodeItems := receipt_data.items }

/-- The claims object signed into the save URL (`main.py:34-39`). -/
structure WalletClaims where
  iss : String
  aud : String
  typ : String
  genericObjects : List WalletObjectPayload
deriving Repr, DecidableEq

/-- Abstract model of `jwt.encode(claims, private_key, algorithm="RS256")`
(`main.py:41-45`): the token string is an encoding of the claims together
with the signing key, standing in for header.payload.signature. -/
def jwt_encode_rs256 (private_key : String) (claims : WalletClaims) : String :=
  reprStr (private_key, claims)

/-- The wallet issuer's save-URL base (`main.py:46`). -/
def save_url_base : String := "https://pay.google.com/gp/v/save/"

/-- `create_jwt_save_url` (`main.py:30-46`): sign the claims object (issuer
email, audience "google", type "savetowallet", the object payload) with the
service private key and return it as a URL path segment. -/
def create_jwt_save_url (service_account : ServiceAccountInfo)
    (object_payload : WalletObjectPayload) : String :=
  save_url_base ++ jwt_encode_rs256 service_account.private_key
    { iss := service_account.client_email
      aud := "google"
      typ := "savetowallet"
      genericObjects := [object_payload] }

/-- The external issuer's HTTP response to a POST of the object payload. -/
structure HttpResponse where
  status_code : Int
  text : String
deriving Repr, DecidableEq

/-- `create_wallet_object` (`main.py:49-107`): build the payload, POST it
once to the issuer, treat status 200 and 409 as success (returning the
signed save URL) and anything else as failure (`None`). `issuer_responses`
is the stream of responses the issuer would give to successive POSTs; the
function consumes only its head — it never retries. -/
def create_wallet_object (service_account : ServiceAccountInfo)
    (receipt_data : WalletReceiptData) (now : Int)
    (issuer_responses : List HttpResponse) : Option String :=
  match issuer_responses.head? with
  | none => none
  | some response =>
    if response.status_code == 200 || response.status_code == 409 then
      some (create_jwt_save_url service_account
        (wallet_object_payload receipt_data now))
    else
      none

/-! ## The save-to-wallet endpoint (`llm_api.py`) -/

/-- The JSON body returned by the API surface. -/
inductive ApiResult where
  | success (saveUrl : String)
  | error (message : String)
deriving Repr, DecidableEq

/-- The item dict built for the wallet path (`llm_api.py:137-144`): name from
`i.to_dict().get("item_name", "unknown")` — the current `name` field is never
consulted — price defaulting to 0, quantity defaulting to 1. -/
def save_to_wallet_item (i : RawItem) : RawItem :=
  { item_name := none
    name := some (i.item_name.getD "unknown")
    price := some (i.price.getD 0)
    quantity := some (i.quantity.getD 1) }

/-- The receipt dict assembled by `save_to_wallet` for the builder
(`llm_api.py:133-145`): the fetched document's fields with the items
replaced by the wallet-path item dicts. -/
def save_to_wallet_receipt_data (doc : StoredReceipt) : WalletReceiptData :=
  { type_of_purchase := doc.fields.type_of_purchase
    establishment_name := doc.fields.establishment_name
    date := doc.fields.date
    total := doc.fields.total
    items := doc.items.map save_to_wallet_item }

/-- `save_to_wallet` (`llm_api.py:122-155`): fetch the document by id —
"Receipt not found" when it does not exist, and the same "Receipt not found"
when its `user_sub` differs from the caller's — then build the wallet object
and return the save URL, or "Failed to create wallet object" when the
builder fails. -/
def save_to_wallet (store : ReceiptStore) (receipt_id : String)
    (current_user_sub : String) (service_account : ServiceAccountInfo)
    (now : Int) (issuer_responses : List HttpResponse) : ApiResult :=
  match store.find? (fun d => d.id == receipt_id) with
  | none => ApiResult.error "Receipt not found"
  | some doc =>
    if doc.fields.user_sub ≠ current_user_sub then
      ApiResult.error "Receipt not found"
    else
      match create_wallet_object service_account
          (save_to_wallet_receipt_data doc) now issuer_responses with
      | some url => ApiResult.success url
      | none => ApiResult.error "Failed to create wallet object"

/-! ## Spec-side definitions for refinement comparisons -/

/-- The Normalizer's item-field policy as the specification words it
(§4.3): an item's name resolves from the legacy `item_name` field when
present, else the current `name` field, defaulting to "Unknown" when neither
is present; price defaults to 0 and quantity to 1. Stated from the spec's
words for comparison with the read path's remapping. -/
def normalizer_item_policy (i : RawItem) : RawItem :=
  { item_name := none
    name := some (match i.item_name with
                  | some s => s
                  | none => i.name.getD "Unknown")
    price := some (i.price.getD 0)
    quantity := some (i.quantity.getD 1) }


/-! ## Helper lemmas -/

theorem pyOrStr_none (b : String) : pyOrStr none b = b := rfl

theorem normalize_item_idem (i : RawItem) :
    normalize_item (normalize_item i) = normalize_item i := by
  simp [normalize_item, pyOrStr]

theorem remap_normalize_item (i : RawItem) :
    remap_item (normalize_item i) = normalize_item i := by
  simp [remap_item, normalize_item]

/-! ## C7 -/

/-- C7: `normalize_receipt` is idempotent: for every raw record `r`,
normalizing twice yields the same record as normalizing once, so an
already-normalized record is a fixed point. -/
theorem normalize_receipt_idempotent (r : RawReceipt) :
    normalize_receipt (normalize_receipt r) = normalize_receipt r := by
  unfold normalize_receipt
  simp only [RawReceipt.mk.injEq, Option.getD_some, List.map_map, true_and]
  exact List.map_congr_left fun i _ => normalize_item_idem i

/-! ## C2 -/

/-- C2: the wallet lookup answers "Receipt not found" both when the document
does not exist and when it exists but is owned by a different user: for
every store, receipt id, caller and issuer behaviour, the two failure cases
produce the identical response, indistinguishable to the caller. -/
theorem save_to_wallet_notfound_masks_forbidden (store : ReceiptStore)
    (receipt_id caller : String) (service_account : ServiceAccountInfo)
    (now : Int) (issuer_responses : List HttpResponse)
    (h : store.find? (fun d => d.id == receipt_id) = none ∨
      ∃ doc, store.find? (fun d => d.id == receipt_id) = some doc ∧
        doc.fields.user_sub ≠ caller) :
    save_to_wallet store receipt_id caller service_account now issuer_responses
      = ApiResult.error "Receipt not found" := by
  unfold save_to_wallet
  rcases h with h | ⟨doc, hfind, hown⟩
  · rw [h]
  · rw [hfind]
    simp [hown]

/-- Witness for C2: with a single receipt owned by "A", the caller "B" gets
"Receipt not found" for it, exactly as for a missing id. -/
theorem save_to_wallet_notfound_masks_forbidden_witness :
    save_to_wallet [⟨"r1", ⟨"A", "Retail", "Cafe", "2024-01-01", 0, 5⟩, []⟩]
        "r1" "B" ⟨"issuer@example.com", "key"⟩ 0 [⟨200, ""⟩]
      = ApiResult.error "Receipt not found" :=
  save_to_wallet_notfound_masks_forbidden _ _ _ _ _ _
    (Or.inr ⟨⟨"r1", ⟨"A", "Retail", "Cafe", "2024-01-01", 0, 5⟩, []⟩,
      by decide, by decide⟩)

/-! ## C4 -/

/-- Counterexample to C4 as stated: for the user with subject-id "u1" and
empty email, decoding the freshly issued token well before its expiry fails
with `Malformed` (the decoder rejects a falsy email), so validation does not
return the embedded profile for every `AuthenticatedUser`. -/
theorem decode_create_fails_on_empty_email :
    ((10 : Int) < 0 + 1440 * 60)
    ∧ decode_access_token "secret" 10
        (create_access_token "secret" 1440 0 ⟨"u1", "", none, none⟩)
      = Except.error AuthErrorKind.Malformed := by
  constructor
  · decide
  · rfl

/-- C4 amended: for every user whose subject-id and email are nonempty,
validating the session token issued for them at any time before the token's
expiry succeeds and returns exactly the embedded profile. -/
theorem decode_create_roundtrip (secret : String) (exp_minutes now t : Int)
    (u : AuthenticatedUser) (hsub : u.sub ≠ "") (hemail : u.email ≠ "")
    (ht : t < now + exp_minutes * 60) :
    decode_access_token secret t (create_access_token secret exp_minutes now u)
      = Except.ok u := by
  unfold create_access_token decode_access_token
  have hexp : ¬(now + exp_minutes * 60 ≤ t) := by omega
  simp [pyFalsy, hsub, hemail, hexp]

/-- Witness for C4 amended: a concrete user round-trips through issue and
validate. -/
theorem decode_create_roundtrip_witness :
    decode_access_token "s" 60
        (create_access_token "s" 1440 0 ⟨"u1", "a@b.c", some "N", none⟩)
      = Except.ok ⟨"u1", "a@b.c", some "N", none⟩ :=
  decode_create_roundtrip "s" 1440 0 60 ⟨"u1", "a@b.c", some "N", none⟩
    (by decide) (by decide) (by decide)

/-! ## C5 -/

/-- Counterexample to C5 as stated: a token whose expiry (0) has passed at
time 100 but whose signature was made with a key other than the server
secret fails with `Invalid`, not `Expired` — signature verification runs
before expiry validation. -/
theorem decode_expired_forged_is_invalid :
    ((0 : Int) < 100)
    ∧ decode_access_token "secret" 100
        (Jwt.signed ⟨some "u1", some "a@b.c", none, none, 0, 0⟩ "other-key")
      = Except.error AuthErrorKind.Invalid := by
  constructor
  · decide
  · rfl

/-- C5 amended: for every token validly signed with the service's secret
whose expiry timestamp has passed, validation fails with `Expired` — in
particular never with `Invalid`. -/
theorem decode_expired_is_expired (secret : String) (now : Int)
    (payload : JwtPayload) (h : payload.exp < now) :
    decode_access_token secret now (Jwt.signed payload secret)
      = Except.error AuthErrorKind.Expired := by
  unfold decode_access_token
  have hexp : payload.exp ≤ now := le_of_lt h
  simp [hexp]

/-- Witness for C5 amended: a concrete well-signed token past its expiry is
rejected as expired. -/
theorem decode_expired_is_expired_witness :
    decode_access_token "secret" 100
        (Jwt.signed ⟨some "u1", some "a@b.c", none, none, 0, 50⟩ "secret")
      = Except.error AuthErrorKind.Expired :=
  decode_expired_is_expired "secret" 100
    ⟨some "u1", some "a@b.c", none, none, 0, 50⟩ (by decide)

/-! ## C1 -/

/-- Counterexample to C1 as stated: with a store holding a single receipt
owned by "A" and caller "B", conversational mode without an explicit receipt
set builds its context from that receipt — a record whose owner differs from
the caller's subject-id appears in the context. -/
theorem llm_model_implicit_fetch_crosses_users :
    llm_model [⟨"r1", ⟨"A", "Retail", "Cafe", "2024-01-01", 0, 1⟩, []⟩]
        [PyArg.str "hello"]
      = Except.ok (LlmRequest.chat "hello"
          [⟨"r1", "A", "Retail", "Cafe", "2024-01-01", 0, 1, []⟩])
    ∧ ("A" : String) ≠ "B" :=
  ⟨rfl, by decide⟩

/-- C1 amended: when the caller passes no explicit receipt set, the
dispatcher's implicitly-fetched context is the entire receipts collection
regardless of owner — every stored receipt, whoever owns it, appears in the
serialized context (the deployed API surface never takes this path: it
always passes an explicit, owner-filtered set). -/
theorem llm_model_implicit_fetch_unscoped (store : ReceiptStore)
    (prompt : String) (h : is_image_path prompt = false) :
    llm_model store [PyArg.str prompt]
      = Except.ok (LlmRequest.chat prompt (store.map fetched_receipt))
    ∧ ∀ d ∈ store, fetched_receipt d ∈ store.map fetched_receipt := by
  refine ⟨?_, fun d hd => List.mem_map_of_mem _ hd⟩
  simp [llm_model, h, fetch_all_receipts_from_firebase]

/-- Witness for C1 amended: one receipt owned by "A" is fetched into the
context of a bare-prompt conversational call. -/
theorem llm_model_implicit_fetch_unscoped_witness :
    llm_model [⟨"r2", ⟨"A", "Retail", "Shop", "d", 0, 2⟩, []⟩] [PyArg.str "hi"]
      = Except.ok (LlmRequest.chat "hi"
          (List.map fetched_receipt [⟨"r2", ⟨"A", "Retail", "Shop", "d", 0, 2⟩, []⟩]))
    ∧ ∀ d ∈ ([⟨"r2", ⟨"A", "Retail", "Shop", "d", 0, 2⟩, []⟩] : ReceiptStore),
        fetched_receipt d
          ∈ List.map fetched_receipt [⟨"r2", ⟨"A", "Retail", "Shop", "d", 0, 2⟩, []⟩] :=
  llm_model_implicit_fetch_unscoped _ "hi" (by decide)

/-! ## C6 -/

/-- Counterexample to C6 as stated: the same first argument "x.jpg" selects
image-extraction when it is the only argument but conversational mode when a
receipt list follows it, so the mode is not selected purely by the
shape/type of the first argument. -/
theorem llm_model_mode_not_first_arg_only :
    llm_model [] [PyArg.str "x.jpg"]
      = Except.ok (LlmRequest.extraction "x.jpg")
    ∧ llm_model [] [PyArg.str "x.jpg", PyArg.list []]
      = Except.ok (LlmRequest.chat "x.jpg" [])
    ∧ LlmRequest.extraction "x.jpg" ≠ LlmRequest.chat "x.jpg" [] :=
  ⟨rfl, rfl, by decide⟩

/-- C6 amended: the dispatcher's mode is selected by the shape of the first
argument together with the argument count: image-extraction exactly when the
argument list is a single image-path string; conversational exactly when,
otherwise, the first argument is a string; an input matching neither shape
fails with InvalidRequest. The three outcomes exhaust and exclude each
other. -/
theorem llm_model_mode_selection (store : ReceiptStore) (args : List PyArg) :
    ((∃ s, llm_model store args = Except.ok (LlmRequest.extraction s)) ↔
      ∃ s, args = [PyArg.str s] ∧ is_image_path s = true)
    ∧ ((∃ s receipts,
        llm_model store args = Except.ok (LlmRequest.chat s receipts)) ↔
      ∃ s rest, args = PyArg.str s :: rest
        ∧ ¬(rest = [] ∧ is_image_path s = true))
    ∧ ((∃ e, llm_model store args = Except.error e) ↔
      ∀ s rest, args ≠ PyArg.str s :: rest) := by
  rcases args with _ | ⟨a0, rest⟩
  · simp [llm_model]
  · rcases a0 with s | receipts | _
    · rcases rest with _ | ⟨a1, rest'⟩
      · by_cases h : is_image_path s
        · simp [llm_model, h]
        · simp [llm_model, h]
          exact ⟨s, [], ⟨rfl, rfl⟩, fun _ => by simpa using h⟩
      · rcases a1 with s1 | l1 | _ <;>
          (simp [llm_model]; exact ⟨s, _, ⟨rfl, rfl⟩, by simp⟩)
    · simp [llm_model]
    · simp [llm_model]

/-- Witness for C6 amended: instantiated at a single image-path argument,
the characterization identifies image-extraction mode. -/
theorem llm_model_mode_selection_witness :
    ∃ s, ([PyArg.str "a.png"] : List PyArg) = [PyArg.str s]
      ∧ is_image_path s = true :=
  (llm_model_mode_selection [] [PyArg.str "a.png"]).1.mp ⟨"a.png", rfl⟩

/-! ## C3 -/

theorem query_receipts_desc_sorted (store : ReceiptStore) (user_id : String) :
    (query_receipts_desc store user_id).Pairwise
      (fun a b => b.fields.created_at ≤ a.fields.created_at) := by
  have h := @List.sorted_mergeSort StoredReceipt
    (fun a b => decide (b.fields.created_at ≤ a.fields.created_at))
    (by intro a b c hab hbc; simp_all; omega)
    (by intro a b; simp; omega)
    (store.filter (fun d => d.fields.user_sub == user_id))
  refine List.Pairwise.imp ?_ h
  intro a b hb
  simpa using hb

theorem mem_query_receipts_desc (store : ReceiptStore) (user_id : String)
    (d : StoredReceipt) :
    d ∈ query_receipts_desc store user_id ↔
      d ∈ store ∧ d.fields.user_sub = user_id := by
  unfold query_receipts_desc
  rw [(List.mergeSort_perm _ _).mem_iff, List.mem_filter]
  simp

theorem remap_item_eq_policy (i : RawItem) :
    remap_item i = normalizer_item_policy i := by
  rcases i with ⟨iname, n, p, q⟩
  cases iname <;> rfl

/-- C3: `get_all_receipts` returns exactly the receipts tagged with the
owner — every returned record carries the owner's subject-id and arises from
a stored document of the owner, and every stored document of the owner
appears — ordered by creation timestamp descending, with each record's child
items attached and remapped per the Normalizer's item-field policy. -/
theorem get_all_receipts_scoped_ordered (store : ReceiptStore)
    (owner : String) :
    (∀ r ∈ get_all_receipts store owner, r.user_sub = owner)
    ∧ (∀ r ∈ get_all_receipts store owner, ∃ d ∈ store,
        d.fields.user_sub = owner ∧ r = listed_receipt d)
    ∧ (∀ d ∈ store, d.fields.user_sub = owner →
        listed_receipt d ∈ get_all_receipts store owner)
    ∧ (get_all_receipts store owner).Pairwise
        (fun a b => b.created_at ≤ a.created_at)
    ∧ (∀ d : StoredReceipt, (listed_receipt d).items
        = d.items.map normalizer_item_policy) := by
  refine ⟨?_, ?_, ?_, ?_, ?_⟩
  · intro r hr
    rcases List.mem_map.1 hr with ⟨d, hd, rfl⟩
    have := (mem_query_receipts_desc store owner d).1 hd
    exact this.2
  · intro r hr
    rcases List.mem_map.1 hr with ⟨d, hd, rfl⟩
    have h := (mem_query_receipts_desc store owner d).1 hd
    exact ⟨d, h.1, h.2, rfl⟩
  · intro d hd hown
    exact List.mem_map_of_mem _
      ((mem_query_receipts_desc store owner d).2 ⟨hd, hown⟩)
  · have h := query_receipts_desc_sorted store owner
    unfold get_all_receipts
    rw [List.pairwise_map]
    exact h
  · intro d
    show d.items.map remap_item = d.items.map normalizer_item_policy
    exact List.map_congr_left fun i _ => remap_item_eq_policy i

/-- Witness for C3: with one receipt each for owners "A" and "B", the
listing for "A" contains A's receipt. -/
theorem get_all_receipts_scoped_ordered_witness :
    listed_receipt ⟨"r1", ⟨"A", "Retail", "Cafe", "d", 0, 9⟩, []⟩
      ∈ get_all_receipts
          [⟨"r1", ⟨"A", "Retail", "Cafe", "d", 0, 9⟩, []⟩,
           ⟨"r2", ⟨"B", "Retail", "Bar", "d", 0, 3⟩, []⟩] "A" :=
  (get_all_receipts_scoped_ordered _ "A").2.2.1
    ⟨"r1", ⟨"A", "Retail", "Cafe", "d", 0, 9⟩, []⟩ (by decide) rfl

/-! ## C8 -/

/-- C8: round-trip through the store: normalizing and saving a raw record
for an owner, then listing for that owner, yields a listed receipt carrying
the fresh id whose items are exactly the original items after
default-filling — name resolved from the legacy `item_name` field or else
the current `name` field, defaulting to "Unknown"; price defaulting to 0;
quantity defaulting to 1 — and the fill gives the same item whichever
item-name field the source used. -/
theorem insert_then_list_roundtrip (store : ReceiptStore) (raw : RawReceipt)
    (owner new_id : String) (server_timestamp : Int) :
    (∃ r ∈ get_all_receipts
        (insert_data store raw owner new_id server_timestamp).1 owner,
      r.id = new_id ∧ r.items = raw.items.map normalize_item)
    ∧ (∀ i : RawItem,
        (normalize_item i).name
            = some (pyOrStr i.item_name (i.name.getD "Unknown"))
          ∧ (normalize_item i).price = some (i.price.getD 0)
          ∧ (normalize_item i).quantity = some (i.quantity.getD 1))
    ∧ (∀ (s : String) (p : Option ℚ) (q : Option Int), s ≠ "" →
        normalize_item ⟨some s, none, p, q⟩
          = normalize_item ⟨none, some s, p, q⟩) := by
  refine ⟨?_, fun i => ⟨rfl, rfl, rfl⟩, ?_⟩
  · refine ⟨listed_receipt
      ⟨new_id,
        ⟨owner, (normalize_receipt raw).type_of_purchase.getD "Retail",
          (normalize_receipt raw).establishment_name.getD "Unknown Store",
          (normalize_receipt raw).date.getD "",
          (normalize_receipt raw).total.getD 0, server_timestamp⟩,
        (normalize_receipt raw).items⟩, ?_, rfl, ?_⟩
    · refine List.mem_map_of_mem _
        ((mem_query_receipts_desc _ owner _).2 ⟨?_, rfl⟩)
      simp [insert_data]
    · show (normalize_receipt raw).items.map remap_item
        = raw.items.map normalize_item
      show (raw.items.map normalize_item).map remap_item
        = raw.items.map normalize_item
      rw [List.map_map]
      exact List.map_congr_left fun i _ => remap_normalize_item i
  · intro s p q hs
    simp [normalize_item, pyOrStr, hs]

/-- Witness for C8: the spec's scenario — saving
`[establishment Cafe, total 9.5, one item Tea at 9.5 via the legacy field]`
for "u1" and listing for "u1" yields the Tea item default-filled. -/
theorem insert_then_list_roundtrip_witness :
    (∃ r ∈ get_all_receipts
        (insert_data [] ⟨none, some "Cafe", none, some (19/2),
          [⟨some "Tea", none, some (19/2), none⟩]⟩ "u1" "r1" 5).1 "u1",
      r.id = "r1" ∧ r.items = List.map normalize_item
        [⟨some "Tea", none, some (19/2), none⟩])
    ∧ (∀ i : RawItem,
        (normalize_item i).name
            = some (pyOrStr i.item_name (i.name.getD "Unknown"))
          ∧ (normalize_item i).price = some (i.price.getD 0)
          ∧ (normalize_item i).quantity = some (i.quantity.getD 1))
    ∧ (∀ (s : String) (p : Option ℚ) (q : Option Int), s ≠ "" →
        normalize_item ⟨some s, none, p, q⟩
          = normalize_item ⟨none, some s, p, q⟩) :=
  insert_then_list_roundtrip [] _ "u1" "r1" 5

/-! ## C9 -/

/-- C9: `create_wallet_object` consumes only the first issuer response (it
never retries), succeeds exactly when that status is 200 or 409, and on
success returns the issuer's save-URL base followed by the token signing the
claims object around the built payload; on any other status it fails. -/
theorem create_wallet_object_success_iff
    (service_account : ServiceAccountInfo)
    (receipt_data : WalletReceiptData) (now : Int) (response : HttpResponse)
    (rest : List HttpResponse) :
    (create_wallet_object service_account receipt_data now (response :: rest)
      = create_wallet_object service_account receipt_data now [response])
    ∧ ((∃ url, create_wallet_object service_account receipt_data now
          (response :: rest) = some url)
        ↔ (response.status_code = 200 ∨ response.status_code = 409))
    ∧ ((response.status_code = 200 ∨ response.status_code = 409) →
        ∃ token, create_wallet_object service_account receipt_data now
            (response :: rest) = some (save_url_base ++ token)
          ∧ token = jwt_encode_rs256 service_account.private_key
              { iss := service_account.client_email
                aud := "google"
                typ := "savetowallet"
                genericObjects := [wallet_object_payload receipt_data now] }) := by
  refine ⟨rfl, ⟨?_, ?_⟩, ?_⟩
  · rintro ⟨url, hurl⟩
    by_contra hcon
    push_neg at hcon
    have hb : (response.status_code == 200 || response.status_code == 409)
        = false := by
      simp [hcon.1, hcon.2]
    simp [create_wallet_object, hb] at hurl
  · intro h
    have hb : (response.status_code == 200 || response.status_code == 409)
        = true := by
      rcases h with h | h <;> simp [h]
    exact ⟨create_jwt_save_url service_account
      (wallet_object_payload receipt_data now),
      by simp [create_wallet_object, hb]⟩
  · intro h
    have hb : (response.status_code == 200 || response.status_code == 409)
        = true := by
      rcases h with h | h <;> simp [h]
    refine ⟨jwt_encode_rs256 service_account.private_key
      { iss := service_account.client_email
        aud := "google"
        typ := "savetowallet"
        genericObjects := [wallet_object_payload receipt_data now] }, ?_, rfl⟩
    simp [create_wallet_object, hb, create_jwt_save_url]

/-- Witness for C9: a 200 response (followed by an unconsulted 500) yields
the save URL built from the base and the signed claims. -/
theorem create_wallet_object_success_iff_witness :
    ∃ token, create_wallet_object ⟨"issuer@example.com", "pk"⟩
        ⟨"Retail", "Cafe", "2024", 0, []⟩ 7 [⟨200, ""⟩, ⟨500, "err"⟩]
      = some (save_url_base ++ token)
    ∧ token = jwt_encode_rs256 "pk"
        { iss := "issuer@example.com"
          aud := "google"
          typ := "savetowallet"
          genericObjects :=
            [wallet_object_payload ⟨"Retail", "Cafe", "2024", 0, []⟩ 7] } :=
  (create_wallet_object_success_iff ⟨"issuer@example.com", "pk"⟩
    ⟨"Retail", "Cafe", "2024", 0, []⟩ 7 ⟨200, ""⟩ [⟨500, "err"⟩]).2.2
    (Or.inl rfl)

/-! ## C10 -/

/-- C10: the wallet path takes each attached item's name only from the
legacy `item_name` field, defaulting to "unknown" when absent, and never
consults the current `name` field; items written by the save path's
normalization carry no `item_name`, so every item of the wallet object
rendered for such a receipt is named "unknown". -/
theorem save_to_wallet_items_unknown :
    (∀ i : RawItem,
      (save_to_wallet_item i).name = some (i.item_name.getD "unknown"))
    ∧ (∀ (i : RawItem) (n : Option String),
        save_to_wallet_item { i with name := n } = save_to_wallet_item i)
    ∧ (∀ raw : RawReceipt, ∀ i ∈ (normalize_receipt raw).items,
        i.item_name = none)
    ∧ (∀ (doc : StoredReceipt) (now : Int),
        (∀ i ∈ doc.items, i.item_name = none) →
        ∀ j ∈ (wallet_object_payload
            (save_to_wallet_receipt_data doc) now).barcodeItems,
          j.name = some "unknown") := by
  refine ⟨fun i => rfl, fun i n => rfl, ?_, ?_⟩
  · intro raw i hi
    rcases List.mem_map.1 hi with ⟨j, _, rfl⟩
    rfl
  · intro doc now h j hj
    rcases List.mem_map.1 hj with ⟨i, hi, rfl⟩
    have := h i hi
    simp [save_to_wallet_item, this]

/-- Witness for C10: a stored item carrying only the `name` field "Tea"
renders into the wallet object with the name "unknown". -/
theorem save_to_wallet_items_unknown_witness :
    ∀ j ∈ (wallet_object_payload
        (save_to_wallet_receipt_data
          ⟨"r1", ⟨"u1", "Retail", "Cafe", "d", 0, 1⟩,
            [⟨none, some "Tea", some 0, none⟩]⟩) 3).barcodeItems,
      j.name = some "unknown" :=
  save_to_wallet_items_unknown.2.2.2
    ⟨"r1", ⟨"u1", "Retail", "Cafe", "d", 0, 1⟩,
      [⟨none, some "Tea", some 0, none⟩]⟩ 3 (by decide)
